import Mathlib

/-!
# AutoBudget ML service — verification of the analytics core

Shallow embedding of `src/ml-service/app/main.py` (FastAPI service exposing four
statistical endpoints over a list of financial transactions).

Modelling conventions:
* Monetary amounts and all derived statistics are exact rationals (`ℚ`); the
  Python floats are modelled by exact arithmetic.
* A parsed `pandas` datetime is reduced to the data the code actually uses:
  the calendar month (`Period('M')`), modelled as an absolute month index
  `year * 12 + (month - 1)`, plus the day (used only for `sort_values('date')`).
  `Period + n` is then `MonthKey + n`.
* NumPy's ambient random state is made explicit: every endpoint receives the
  stream `g : Nat → ℚ` of `np.random.normal(0, 0.1)` draws it would consume, in
  loop order.  Only `predict_expenses` reads the stream.
* `raise HTTPException(s, d)` is `Except.error ⟨s, d⟩`.  Each endpoint wraps its
  body in `handled`, the image of `except Exception as e: raise
  HTTPException(500, str(e))`; note that FastAPI's `HTTPException` derives from
  `Exception`, so the blanket handler also catches the endpoint's own 400.
* `np.std` returns `√(population variance)`.  Since `√` is irrational, the
  anomaly record stores the squared z-score `zsq` and the pair `(mean, var)`
  that represents the floating-point fields of the source record:
  `z_score = √zsq`, `expected_range = [mean - 2√var, mean + 2√var]`.
  The guard `std == 0` is equivalently `var = 0`, and `z > c` (for `c ≥ 0`)
  is equivalently `c² · var < (amount - mean)²`; the theorems state the
  claims with `Real.sqrt` and bridge to these rational tests.
-/

namespace AutoBudget

/-- Absolute month index: `year * 12 + (month - 1)`.  This is the embedding of
`pandas.Period('M')`: totally ordered, and `Period + n` is `MonthKey + n`
(wrapping across year boundaries is automatic in this encoding). -/
abbrev MonthKey := Nat

/-- A parsed calendar date, reduced to what the code consumes: its month key
(for all grouping) and the day of month (to complete `sort_values('date')`). -/
structure Date where
  month : MonthKey
  day : Nat
deriving DecidableEq

/-- Transaction data model (`class Transaction(BaseModel)`): amount, parsed
date, category label, kind string ("income" or "expense", not validated). -/
structure Transaction where
  amount : ℚ
  date : Date
  category : String
  kind : String
deriving DecidableEq

/-- Chronological order on dates used by `df.sort_values('date')`. -/
def dateLe (a b : Date) : Prop :=
  a.month < b.month ∨ (a.month = b.month ∧ a.day ≤ b.day)

instance : DecidableRel dateLe := fun a b => by unfold dateLe; exact inferInstance

/-- Order on rows for `sort_values('date')`. -/
def txDateLe (a b : Transaction) : Prop := dateLe a.date b.date

instance : DecidableRel txDateLe := fun a b => by unfold txDateLe; exact inferInstance

/-- Code-point comparison of characters (Python string order). -/
def strLeAux : List Char → List Char → Bool
  | [], _ => true
  | _ :: _, [] => false
  | a :: as, b :: bs =>
    if a.toNat < b.toNat then true
    else if b.toNat < a.toNat then false
    else strLeAux as bs

/-- Lexicographic code-point order on strings: Python's `str <=`, the order in
which `pandas.groupby` sorts string group keys. -/
def strLe (a b : String) : Prop := strLeAux a.data b.data = true

instance : DecidableRel strLe := fun a b => by unfold strLe; exact inferInstance

/-- `df[df['type'] == 'expense']` applied to the raw request list. -/
def expenseList (txs : List Transaction) : List Transaction :=
  txs.filter (fun t => t.kind == "expense")

/-- `df[df['type'] == 'income']` applied to the raw request list. -/
def incomeList (txs : List Transaction) : List Transaction :=
  txs.filter (fun t => t.kind == "income")

/-- `df = df[df['type'] == 'expense'].sort_values('date')`.  (pandas uses an
unstable quicksort; the relative order of equal dates never affects any value
or membership proved below, only the print order of the anomaly list.) -/
def expensesOf (txs : List Transaction) : List Transaction :=
  List.insertionSort txDateLe (expenseList txs)

/-- `df = df[df['type'] == 'income'].sort_values('date')`. -/
def incomesOf (txs : List Transaction) : List Transaction :=
  List.insertionSort txDateLe (incomeList txs)

/-- Arithmetic mean of a list, `Series.mean()` / `np.mean` (0 on the empty
list, which every call site guards against). -/
def mean (xs : List ℚ) : ℚ := xs.sum / xs.length

/-- Population variance, the square of `np.std` (which divides by N). -/
def popVar (xs : List ℚ) : ℚ := mean (xs.map (fun x => (x - mean xs) ^ 2))

/-- Sum of the amounts falling in month `m`: one entry of
`df.groupby('month')['amount'].sum()`. -/
def monthSum (l : List Transaction) (m : MonthKey) : ℚ :=
  ((l.filter (fun t => t.date.month == m)).map (fun t => t.amount)).sum

/-- The distinct months of `l` in ascending order: the group keys of
`df.groupby('month')` (pandas sorts group keys). -/
def monthsOf (l : List Transaction) : List MonthKey :=
  List.insertionSort (· ≤ ·) ((l.map (fun t => t.date.month)).dedup)

/-- `df.groupby('month')['amount'].sum()` as the month-ascending list of
monthly sums. -/
def monthlySums (l : List Transaction) : List ℚ :=
  (monthsOf l).map (monthSum l)

/-- `Series.tail(k)`: the last `min(k, n)` entries (all of them when `n < k`). -/
def lastK (k : Nat) (xs : List ℚ) : List ℚ := xs.drop (xs.length - k)

/-- `df['month'].max()` (the call sites guard the list to be non-empty, so the
default 0 of the empty fold is never produced). -/
def maxMonth (l : List Transaction) : MonthKey :=
  (l.map (fun t => t.date.month)).foldr max 0

/-- `df[df['category'] == c]`. -/
def catTxs (l : List Transaction) (c : String) : List Transaction :=
  l.filter (fun t => t.category == c)

/-- The amounts of category `c`. -/
def catAmounts (l : List Transaction) (c : String) : List ℚ :=
  (catTxs l c).map (fun t => t.amount)

/-- Number of transactions of category `c`. -/
def catCount (l : List Transaction) (c : String) : Nat := (catTxs l c).length

/-- The distinct categories in the pandas `groupby('category')` key order
(sorted lexicographically). -/
def categoriesOf (l : List Transaction) : List String :=
  List.insertionSort strLe ((l.map (fun t => t.category)).dedup)

/-- `df.groupby('category')['amount'].mean()`: per category, the mean of that
category's transaction amounts (not of its monthly sums). -/
def catMeans (l : List Transaction) : List (String × ℚ) :=
  (categoriesOf l).map (fun c => (c, mean (catAmounts l c)))

/-- Round a rational to the nearest integer, ties to even — the rounding of
Python's builtin `round` used by `round(x, 2)`. -/
def rne (q : ℚ) : ℤ :=
  if q - ⌊q⌋ < 1 / 2 then ⌊q⌋
  else if 1 / 2 < q - ⌊q⌋ then ⌊q⌋ + 1
  else if ⌊q⌋ % 2 = 0 then ⌊q⌋ else ⌊q⌋ + 1

/-- `round(q, 2)`. -/
def round2 (q : ℚ) : ℚ := (rne (q * 100) : ℚ) / 100

/-- A raised `HTTPException(status_code, detail)`. -/
structure HTTPError where
  status : Nat
  detail : String
deriving DecidableEq

/-- `str(HTTPException)`, starlette's `"{status_code}: {detail}"`. -/
def HTTPError.str (e : HTTPError) : String := toString e.status ++ ": " ++ e.detail

instance {ε α : Type} [DecidableEq ε] [DecidableEq α] : DecidableEq (Except ε α) :=
  fun x y =>
    match x, y with
    | .ok a, .ok b =>
      if h : a = b then isTrue (by rw [h]) else isFalse (fun hh => by cases hh; exact h rfl)
    | .error a, .error b =>
      if h : a = b then isTrue (by rw [h]) else isFalse (fun hh => by cases hh; exact h rfl)
    | .ok _, .error _ => isFalse (fun hh => by cases hh)
    | .error _, .ok _ => isFalse (fun hh => by cases hh)

/-- The `try ... except Exception as e: raise HTTPException(500, str(e))`
wrapper shared by all four endpoints.  `HTTPException` derives from
`Exception`, so an `HTTPException` raised inside the `try` block (including the
endpoint's own 400) is caught here and re-raised as a 500 whose detail is
`str(e)`. -/
def handled {α : Type} (x : Except HTTPError α) : Except HTTPError α :=
  match x with
  | .ok a => .ok a
  | .error e => .error ⟨500, e.str⟩

/-- `PredictionResponse`, parametrised by the shape of the prediction dicts.
`model_accuracy` is `Optional` and defaults to `None`. -/
structure PredictionResponse (α : Type) where
  predictions : List α
  model_accuracy : Option ℚ
  message : String
deriving DecidableEq

/-- The single record produced by `train_spending_model`. -/
structure SpendingPrediction where
  average_monthly_spending : ℚ
  recent_trend : ℚ
  prediction_confidence : ℚ
deriving DecidableEq

/-- One prediction dict of `predict_expenses`: the month label, the rounded
total, and the per-category breakdown as a key-ordered association list. -/
structure ExpensePrediction where
  month : MonthKey
  total_predicted_expenses : ℚ
  by_category : List (String × ℚ)
deriving DecidableEq

/-- One anomaly dict of `detect_anomalies`.  The float fields `z_score` and
`expected_range` are irrational square roots of rational data and are stored by
their rational representations: `z_score = √zsq` and
`expected_range = [mean - 2·√var, mean + 2·√var]` (`np.std = √var`). -/
structure AnomalyRecord where
  date : Date
  amount : ℚ
  category : String
  zsq : ℚ
  mean : ℚ
  var : ℚ
  severity : String
deriving DecidableEq

/-- `AnomalyResponse`. -/
structure AnomalyResponse where
  anomalies : List AnomalyRecord
  total_anomalies : Nat
  message : String
deriving DecidableEq

/-- One forecast dict of `forecast_income`. -/
structure ForecastPoint where
  month : MonthKey
  predicted_income : ℚ
  confidence_lower : ℚ
  confidence_upper : ℚ
deriving DecidableEq

/-- `ForecastResponse` (its `confidence_interval` field is never populated by
the code and is omitted). -/
structure ForecastResponse where
  forecast : List ForecastPoint
  message : String
deriving DecidableEq

/-- Body of `/api/ml/train-spending-model` after the emptiness check and the
kind filter + date sort. -/
def trainCore (df : List Transaction) : PredictionResponse SpendingPrediction :=
  if df.length < 3 then
    ⟨[], none, "Insufficient data for training. Need at least 3 transactions."⟩
  else
    let sums := monthlySums df
    if sums.length < 2 then
      ⟨[], none, "Need at least 2 months of data for training"⟩
    else
      ⟨[⟨mean sums, mean (lastK 3 sums), 3 / 4⟩], some (3 / 4), "Model trained successfully"⟩

/-- `POST /api/ml/train-spending-model`. -/
def train_spending_model (txs : List Transaction) (_g : Nat → ℚ) :
    Except HTTPError (PredictionResponse SpendingPrediction) :=
  handled
    (if txs.isEmpty then .error ⟨400, "No transaction data provided"⟩
     else .ok (trainCore (expensesOf txs)))

/-- The unrounded per-category projections for one future month:
`category_avg[c] * (1 + np.random.normal(0, 0.1))`, one draw per category in
key order; `base` is the number of draws consumed by earlier months. -/
def monthRaw (cats : List (String × ℚ)) (g : Nat → ℚ) (base : Nat) : List (String × ℚ) :=
  cats.enum.map (fun p => (p.2.1, p.2.2 * (1 + g (base + p.1))))

/-- Body of `/api/ml/predict-expenses` after the emptiness check and the kind
filter + date sort.  (The source also computes `monthly_by_category`, line 157,
but never uses it; that dead assignment is omitted.)  The month total sums the
unrounded projections and is then rounded; the per-category entries are rounded
individually. -/
def predictCore (df : List Transaction) (g : Nat → ℚ) : PredictionResponse ExpensePrediction :=
  if df.length < 3 then
    ⟨[], none, "Insufficient data for predictions. Need at least 3 transactions."⟩
  else
    let catAvg := catMeans df
    let preds := (List.range 3).map (fun i =>
      let raw := monthRaw catAvg g (i * catAvg.length)
      { month := maxMonth df + (i + 1)
        total_predicted_expenses := round2 ((raw.map Prod.snd).sum)
        by_category := raw.map (fun p => (p.1, round2 p.2)) })
    ⟨preds, some (4 / 5), "Predictions generated successfully"⟩

/-- `POST /api/ml/predict-expenses`; the only endpoint that reads the random
stream. -/
def predict_expenses (txs : List Transaction) (g : Nat → ℚ) :
    Except HTTPError (PredictionResponse ExpensePrediction) :=
  handled
    (if txs.isEmpty then .error ⟨400, "No transaction data provided"⟩
     else .ok (predictCore (expensesOf txs) g))

/-- The anomaly records contributed by one category `c` (one iteration of the
`for category in df['category'].unique()` loop): skip if the category has fewer
than 3 rows or zero standard deviation, otherwise emit a record for every row
with `|amount - mean| / std > 2`, carrying `z_score` (stored squared),
`expected_range` (stored as `(mean, var)`) and the severity. -/
def categoryAnomalies (df : List Transaction) (c : String) : List AnomalyRecord :=
  let cdf := catTxs df c
  if cdf.length < 3 then []
  else
    let μ := mean (catAmounts df c)
    let v := popVar (catAmounts df c)
    if v = 0 then []
    else
      (cdf.filter (fun t => 4 * v < (t.amount - μ) ^ 2)).map (fun t =>
        ⟨t.date, t.amount, c, (t.amount - μ) ^ 2 / v, μ, v,
          if 9 * v < (t.amount - μ) ^ 2 then "high" else "medium"⟩)

/-- Body of `/api/ml/detect-anomalies` after the emptiness check and the kind
filter + date sort.  `df['category'].unique()` lists categories in order of
first appearance. -/
def detectCore (df : List Transaction) : AnomalyResponse :=
  if df.length < 5 then
    ⟨[], 0, "Need at least 5 transactions for anomaly detection"⟩
  else
    let anoms := ((df.map (fun t => t.category)).dedup).flatMap (categoryAnomalies df)
    ⟨anoms, anoms.length, "Detected " ++ toString anoms.length ++ " anomalous transactions"⟩

/-- `POST /api/ml/detect-anomalies`. -/
def detect_anomalies (txs : List Transaction) (_g : Nat → ℚ) :
    Except HTTPError AnomalyResponse :=
  handled
    (if txs.isEmpty then .error ⟨400, "No transaction data provided"⟩
     else .ok (detectCore (expensesOf txs)))

/-- Slope of `np.polyfit(x, ys, 1)` with `x = 0, …, n-1`: the closed-form
ordinary-least-squares solution `(n·Σxy - Σx·Σy) / (n·Σx² - (Σx)²)` of the
degree-1 least-squares problem (unique for n ≥ 2). -/
def olsSlope (ys : List ℚ) : ℚ :=
  let n : ℚ := ys.length
  let sx : ℚ := ((List.range ys.length).map (fun i => (i : ℚ))).sum
  let sxx : ℚ := ((List.range ys.length).map (fun i => (i : ℚ) ^ 2)).sum
  let sy := ys.sum
  let sxy := (ys.enum.map (fun p => (p.1 : ℚ) * p.2)).sum
  (n * sxy - sx * sy) / (n * sxx - sx ^ 2)

/-- Body of `/api/ml/forecast-income` after the emptiness check and the kind
filter + date sort. -/
def forecastCore (df : List Transaction) : ForecastResponse :=
  if df.length < 3 then
    ⟨[], "Insufficient income data for forecasting. Need at least 3 income transactions."⟩
  else
    let sums := monthlySums df
    if sums.length < 2 then
      ⟨[], "Need at least 2 months of income data"⟩
    else
      let avg := mean sums
      let trend := olsSlope sums
      let pts := (List.range 3).map (fun (i : Nat) =>
        let p := avg + trend * ((sums.length : ℚ) + ((i : ℚ) + 1))
        { month := maxMonth df + (i + 1)
          predicted_income := round2 p
          confidence_lower := round2 (p - avg * (1 / 10))
          confidence_upper := round2 (p + avg * (1 / 10)) })
      ⟨pts, "Income forecast generated successfully"⟩

/-- `POST /api/ml/forecast-income`. -/
def forecast_income (txs : List Transaction) (_g : Nat → ℚ) :
    Except HTTPError ForecastResponse :=
  handled
    (if txs.isEmpty then .error ⟨400, "No transaction data provided"⟩
     else .ok (forecastCore (incomesOf txs)))

/-- The all-zeros noise stream (every `np.random.normal(0, 0.1)` draw = 0). -/
def gZero : Nat → ℚ := fun _ => 0

/-- The monthly income sums of a request (spec-side shorthand). -/
def incomeSums (txs : List Transaction) : List ℚ := monthlySums (incomeList txs)

/-- The claim's forecast formula `mean(monthly sums) + trend × (n + i)` for the
`(i+1)`-st forecast month (`i = 0, 1, 2`), with `trend` the least-squares
slope and `n` the number of monthly sums. -/
def forecastFormula (txs : List Transaction) (i : Nat) : ℚ :=
  mean (incomeSums txs) +
    olsSlope (incomeSums txs) * (((incomeSums txs).length : ℚ) + ((i : ℚ) + 1))

/-- The anomaly record the code builds for transaction `t` against the
statistics of its own category within `l`. -/
def anomalyRecordOf (l : List Transaction) (t : Transaction) : AnomalyRecord :=
  ⟨t.date, t.amount, t.category,
    (t.amount - mean (catAmounts l t.category)) ^ 2 / popVar (catAmounts l t.category),
    mean (catAmounts l t.category), popVar (catAmounts l t.category),
    if 9 * popVar (catAmounts l t.category) < (t.amount - mean (catAmounts l t.category)) ^ 2
    then "high" else "medium"⟩

/-- Witness input for C2: 3 expenses across 2 months. -/
def txsW2 : List Transaction :=
  [⟨10, ⟨0, 1⟩, "a", "expense"⟩, ⟨20, ⟨0, 2⟩, "a", "expense"⟩,
   ⟨30, ⟨1, 1⟩, "b", "expense"⟩]

/-- Concrete input for C5: three income months summing to 100, 100, 101, whose
forecast formula value 307/3 is not representable in 2 decimals. -/
def txsC5 : List Transaction :=
  [⟨100, ⟨0, 1⟩, "salary", "income"⟩, ⟨100, ⟨1, 1⟩, "salary", "income"⟩,
   ⟨101, ⟨2, 1⟩, "salary", "income"⟩]

/-- Concrete input for C3: three expenses of one category with mean 301/3,
which is not representable in 2 decimals. -/
def txsC3 : List Transaction :=
  [⟨100, ⟨0, 1⟩, "food", "expense"⟩, ⟨100, ⟨0, 2⟩, "food", "expense"⟩,
   ⟨101, ⟨0, 3⟩, "food", "expense"⟩]

/-- Witness inputs for C9: equal expense sub-sequences, different income and
unclassified rows. -/
def txsW9a : List Transaction :=
  [⟨5, ⟨0, 1⟩, "a", "expense"⟩, ⟨7, ⟨0, 2⟩, "salary", "income"⟩]

def txsW9b : List Transaction :=
  [⟨5, ⟨0, 1⟩, "a", "expense"⟩, ⟨9, ⟨0, 3⟩, "salary", "income"⟩,
   ⟨1, ⟨0, 4⟩, "other-kind", "transfer"⟩]

/-- Witness input for the anomaly claims: six expenses of one category,
amounts 10 ×5 and 100 — mean 25, population variance 1125, z(100) = √5 > 2. -/
def txsD : List Transaction :=
  [⟨10, ⟨0, 1⟩, "food", "expense"⟩, ⟨10, ⟨0, 2⟩, "food", "expense"⟩,
   ⟨10, ⟨0, 3⟩, "food", "expense"⟩, ⟨10, ⟨0, 4⟩, "food", "expense"⟩,
   ⟨10, ⟨0, 5⟩, "food", "expense"⟩, ⟨100, ⟨0, 6⟩, "food", "expense"⟩]

/-- Concrete input for C10's rounding-gap conjunct: two categories with mean
1/8 = 0.125 each; each rounds to 0.12 but the total 0.25 rounds to 0.25. -/
def txsC10 : List Transaction :=
  [⟨1/8, ⟨0, 1⟩, "a", "expense"⟩, ⟨1/8, ⟨0, 2⟩, "a", "expense"⟩,
   ⟨1/8, ⟨0, 3⟩, "b", "expense"⟩]

/-- The anomaly record the code produces on `txsD`: z² = 5625/1125 = 5,
mean 25, variance 1125, severity medium since √5 < 3. -/
def rD : AnomalyRecord := ⟨⟨0, 6⟩, 100, "food", 5, 25, 1125, "medium"⟩

/-- The full anomaly response on `txsD`. -/
def bodyD : AnomalyResponse := ⟨[rD], 1, "Detected 1 anomalous transactions"⟩

/-- C1: the claim says an empty transaction list yields a client-facing 4xx
input error.  The code instead yields a generic 500 server error on all four
endpoints: the `HTTPException(400)` raised inside the `try` block is caught by
the blanket `except Exception` (FastAPI's `HTTPException` subclasses
`Exception`) and re-raised as `HTTPException(500, str(e))`, so the client
receives status 500 with detail "400: No transaction data provided". -/
theorem empty_input_yields_500 :
    train_spending_model [] gZero = .error ⟨500, "400: No transaction data provided"⟩ ∧
    predict_expenses [] gZero = .error ⟨500, "400: No transaction data provided"⟩ ∧
    detect_anomalies [] gZero = .error ⟨500, "400: No transaction data provided"⟩ ∧
    forecast_income [] gZero = .error ⟨500, "400: No transaction data provided"⟩ :=
  ⟨rfl, rfl, rfl, rfl⟩

/-! ## Permutation toolkit

`sort_values('date')` only permutes the rows; every aggregated statistic is
invariant under that permutation.  These lemmas transfer the statistics of the
sorted frame back to the raw filtered sub-sequence of the request. -/

theorem expensesOf_perm (txs : List Transaction) : (expensesOf txs).Perm (expenseList txs) :=
  List.perm_insertionSort _ _

theorem incomesOf_perm (txs : List Transaction) : (incomesOf txs).Perm (incomeList txs) :=
  List.perm_insertionSort _ _

theorem mean_perm {l₁ l₂ : List ℚ} (h : l₁.Perm l₂) : mean l₁ = mean l₂ := by
  unfold mean; rw [h.sum_eq, h.length_eq]

theorem popVar_perm {l₁ l₂ : List ℚ} (h : l₁.Perm l₂) : popVar l₁ = popVar l₂ := by
  unfold popVar
  rw [mean_perm h]
  exact mean_perm (h.map _)

theorem monthSum_perm {l₁ l₂ : List Transaction} (h : l₁.Perm l₂) (m : MonthKey) :
    monthSum l₁ m = monthSum l₂ m := by
  unfold monthSum; exact ((h.filter _).map _).sum_eq

theorem monthsOf_perm {l₁ l₂ : List Transaction} (h : l₁.Perm l₂) :
    monthsOf l₁ = monthsOf l₂ := by
  unfold monthsOf
  refine List.eq_of_perm_of_sorted ?_ (List.sorted_insertionSort _ _)
    (List.sorted_insertionSort _ _)
  exact (List.perm_insertionSort _ _).trans (((h.map _).dedup).trans
    (List.perm_insertionSort _ _).symm)

theorem monthlySums_perm {l₁ l₂ : List Transaction} (h : l₁.Perm l₂) :
    monthlySums l₁ = monthlySums l₂ := by
  unfold monthlySums
  rw [monthsOf_perm h]
  exact List.map_congr_left (fun m _ => monthSum_perm h m)

theorem foldr_max_perm {l₁ l₂ : List Nat} (h : l₁.Perm l₂) (b : Nat) :
    l₁.foldr max b = l₂.foldr max b := by
  induction h with
  | nil => rfl
  | cons a _ ih => simp only [List.foldr_cons, ih]
  | swap a c l => simp only [List.foldr_cons]; rw [max_left_comm]
  | trans _ _ ih₁ ih₂ => rw [ih₁, ih₂]

theorem maxMonth_perm {l₁ l₂ : List Transaction} (h : l₁.Perm l₂) :
    maxMonth l₁ = maxMonth l₂ := by
  unfold maxMonth; exact foldr_max_perm (h.map _) 0

theorem catTxs_perm {l₁ l₂ : List Transaction} (h : l₁.Perm l₂) (c : String) :
    (catTxs l₁ c).Perm (catTxs l₂ c) := h.filter _

theorem catAmounts_perm {l₁ l₂ : List Transaction} (h : l₁.Perm l₂) (c : String) :
    (catAmounts l₁ c).Perm (catAmounts l₂ c) := (h.filter _).map _

theorem catCount_perm {l₁ l₂ : List Transaction} (h : l₁.Perm l₂) (c : String) :
    catCount l₁ c = catCount l₂ c := (catTxs_perm h c).length_eq

theorem monthlySums_length (l : List Transaction) :
    (monthlySums l).length = ((l.map (fun t => t.date.month)).dedup).length := by
  unfold monthlySums monthsOf
  rw [List.length_map, (List.perm_insertionSort _ _).length_eq]

theorem isEmpty_false_of_ne {α : Type} {l : List α} (h : l ≠ []) : l.isEmpty = false := by
  cases l with
  | nil => exact absurd rfl h
  | cons a l => rfl

theorem expenseList_ne_nil {txs : List Transaction} (h : 1 ≤ (expenseList txs).length) :
    txs ≠ [] := by
  intro e; subst e; simp [expenseList] at h

theorem incomeList_ne_nil {txs : List Transaction} (h : 1 ≤ (incomeList txs).length) :
    txs ≠ [] := by
  intro e; subst e; simp [incomeList] at h

/-- C2: with at least 3 expense transactions spanning at least 2 distinct
months, `train_spending_model` succeeds with exactly one prediction record:
`average_monthly_spending` is the arithmetic mean of the per-month expense
sums and `recent_trend` is the mean of the last 3 monthly sums (of all of them
when fewer than 3 months exist, which `lastK` realises by dropping
`length - 3` elements).  The fixed confidence / accuracy are 0.75. -/
theorem spending_summary_claim (txs : List Transaction) (g : Nat → ℚ)
    (h3 : 3 ≤ (expenseList txs).length)
    (h2 : 2 ≤ ((expenseList txs).map (fun t => t.date.month)).dedup.length) :
    train_spending_model txs g = .ok
      ⟨[⟨mean (monthlySums (expenseList txs)), mean (lastK 3 (monthlySums (expenseList txs))),
          3 / 4⟩],
        some (3 / 4), "Model trained successfully"⟩ := by
  have hne : txs ≠ [] := expenseList_ne_nil (by omega)
  unfold train_spending_model
  rw [isEmpty_false_of_ne hne]
  simp only [Bool.false_eq_true, if_false, handled]
  have hlen : (expensesOf txs).length = (expenseList txs).length :=
    (expensesOf_perm txs).length_eq
  have hsums : monthlySums (expensesOf txs) = monthlySums (expenseList txs) :=
    monthlySums_perm (expensesOf_perm txs)
  simp only [trainCore, hlen, hsums]
  rw [if_neg (by omega), if_neg (by rw [monthlySums_length]; omega)]

theorem spending_summary_claim_witness :
    3 ≤ (expenseList txsW2).length ∧
    2 ≤ ((expenseList txsW2).map (fun t => t.date.month)).dedup.length ∧
    train_spending_model txsW2 gZero = .ok
      ⟨[⟨mean (monthlySums (expenseList txsW2)), mean (lastK 3 (monthlySums (expenseList txsW2))),
          3 / 4⟩],
        some (3 / 4), "Model trained successfully"⟩ :=
  ⟨by decide, by decide, spending_summary_claim txsW2 gZero (by decide) (by decide)⟩

/-- C7: `train_spending_model`, `detect_anomalies` and `forecast_income` are
deterministic — their responses do not depend on the ambient random stream, so
any two calls with identical transaction lists produce identical responses.
(`predict_expenses` is the only endpoint that consumes the stream.) -/
theorem three_endpoints_deterministic (txs : List Transaction) (g₁ g₂ : Nat → ℚ) :
    train_spending_model txs g₁ = train_spending_model txs g₂ ∧
    detect_anomalies txs g₁ = detect_anomalies txs g₂ ∧
    forecast_income txs g₁ = forecast_income txs g₂ :=
  ⟨rfl, rfl, rfl⟩

/-- C9: transactions of the non-analyzed kind never influence results.  Two
non-empty requests with equal expense sub-sequences get identical responses
from `train_spending_model`, `detect_anomalies` and (noise stream fixed, hence
distribution-identical) `predict_expenses`; two non-empty requests with equal
income sub-sequences get identical responses from `forecast_income`. -/
theorem kind_filter_only (l₁ l₂ : List Transaction) (g : Nat → ℚ)
    (h₁ : l₁ ≠ []) (h₂ : l₂ ≠ []) :
    (expenseList l₁ = expenseList l₂ →
      train_spending_model l₁ g = train_spending_model l₂ g ∧
      detect_anomalies l₁ g = detect_anomalies l₂ g ∧
      predict_expenses l₁ g = predict_expenses l₂ g) ∧
    (incomeList l₁ = incomeList l₂ →
      forecast_income l₁ g = forecast_income l₂ g) := by
  constructor
  · intro hE
    have he : expensesOf l₁ = expensesOf l₂ := by unfold expensesOf; rw [hE]
    unfold train_spending_model detect_anomalies predict_expenses
    rw [isEmpty_false_of_ne h₁, isEmpty_false_of_ne h₂, he]
    exact ⟨rfl, rfl, rfl⟩
  · intro hI
    have hi : incomesOf l₁ = incomesOf l₂ := by unfold incomesOf; rw [hI]
    unfold forecast_income
    rw [isEmpty_false_of_ne h₁, isEmpty_false_of_ne h₂, hi]

theorem kind_filter_only_witness :
    expenseList txsW9a = expenseList txsW9b ∧
    train_spending_model txsW9a gZero = train_spending_model txsW9b gZero :=
  ⟨by with_unfolding_all decide,
    ((kind_filter_only txsW9a txsW9b gZero (by decide) (by decide)).1
      (by with_unfolding_all decide)).1⟩

/-- C5 (amended): with ≥3 income transactions spanning ≥2 months,
`forecast_income` returns exactly the 3 points for the months following the
latest income month, whose `predicted_income` is `mean + trend × (n + i)`
**rounded to 2 decimal places**, and whose confidence bounds are the 2-decimal
roundings of the *unrounded* prediction ∓ 0.1 × mean — a band of width
0.2 × mean up to the rounding of each endpoint.  `n` is the number of monthly
sums, which equals the number of distinct income months (second conjunct). -/
theorem forecast_income_amended (txs : List Transaction) (g : Nat → ℚ)
    (h3 : 3 ≤ (incomeList txs).length)
    (h2 : 2 ≤ ((incomeList txs).map (fun t => t.date.month)).dedup.length) :
    forecast_income txs g = .ok
      ⟨(List.range 3).map (fun (i : Nat) =>
          ⟨maxMonth (incomeList txs) + (i + 1),
            round2 (forecastFormula txs i),
            round2 (forecastFormula txs i - mean (incomeSums txs) * (1 / 10)),
            round2 (forecastFormula txs i + mean (incomeSums txs) * (1 / 10))⟩),
        "Income forecast generated successfully"⟩ ∧
    (incomeSums txs).length = ((incomeList txs).map (fun t => t.date.month)).dedup.length := by
  have hne : txs ≠ [] := incomeList_ne_nil (by omega)
  constructor
  · unfold forecast_income
    rw [isEmpty_false_of_ne hne]
    simp only [Bool.false_eq_true, if_false, handled]
    have hlen : (incomesOf txs).length = (incomeList txs).length :=
      (incomesOf_perm txs).length_eq
    have hsums : monthlySums (incomesOf txs) = monthlySums (incomeList txs) :=
      monthlySums_perm (incomesOf_perm txs)
    have hmax : maxMonth (incomesOf txs) = maxMonth (incomeList txs) :=
      maxMonth_perm (incomesOf_perm txs)
    simp only [forecastCore, hlen, hsums, hmax]
    rw [if_neg (by omega), if_neg (by rw [monthlySums_length]; omega)]
    simp only [forecastFormula, incomeSums]
  · rw [incomeSums, monthlySums_length]

set_option maxRecDepth 2000 in
/-- C5 counterexample: on `txsC5` the first returned `predicted_income` is
102.33, while the claim's unrounded formula value is 307/3 = 102.333… — the
claim's exact equality fails because the code rounds to 2 decimals. -/
theorem forecast_claim_counterexample :
    (forecast_income txsC5 gZero).toOption.map
        (fun b => (b.forecast.map (fun pt => pt.predicted_income)).head?) =
      some (some (10233 / 100)) ∧
    (10233 / 100 : ℚ) ≠ forecastFormula txsC5 0 := by
  have hdf : incomesOf txsC5 = txsC5 := by
    simp +decide [incomesOf, incomeList, txsC5, List.insertionSort, List.orderedInsert]
  have hs : monthlySums txsC5 = [100, 100, 101] := by
    simp +decide [monthlySums, monthsOf, monthSum, txsC5, List.insertionSort,
      List.orderedInsert, List.dedup_cons_of_not_mem, mean]
  have hs2 : monthlySums (incomeList txsC5) = [100, 100, 101] := by
    simp +decide [monthlySums, monthsOf, monthSum, incomeList, txsC5, List.insertionSort,
      List.orderedInsert, List.dedup_cons_of_not_mem, mean]
  have hmean : mean [(100 : ℚ), 100, 101] = 301 / 3 := by norm_num [mean]
  have hslope : olsSlope [(100 : ℚ), 100, 101] = 1 / 2 := by
    norm_num [olsSlope, List.range_succ, List.enum]
  constructor
  · unfold forecast_income
    rw [isEmpty_false_of_ne (by simp [txsC5])]
    simp only [Bool.false_eq_true, if_false, handled, hdf]
    have hlen : txsC5.length = 3 := rfl
    have hr : List.range 3 = [0, 1, 2] := rfl
    simp only [forecastCore, hs, hmean, hslope, hlen]
    rw [if_neg (by norm_num), if_neg (by norm_num)]
    have hfr : Int.fract ((30700 : ℚ) / 3) = 1 / 3 := by
      rw [Int.fract]; norm_num
    simp only [hr, List.map_cons, List.map_nil, Except.toOption, Option.map, List.head?]
    norm_num [round2, rne, hfr]
  · norm_num [forecastFormula, incomeSums, hs2, hmean, hslope]

theorem forecast_income_amended_witness :
    3 ≤ (incomeList txsC5).length ∧
    (forecast_income txsC5 gZero = .ok
      ⟨(List.range 3).map (fun (i : Nat) =>
          ⟨maxMonth (incomeList txsC5) + (i + 1),
            round2 (forecastFormula txsC5 i),
            round2 (forecastFormula txsC5 i - mean (incomeSums txsC5) * (1 / 10)),
            round2 (forecastFormula txsC5 i + mean (incomeSums txsC5) * (1 / 10))⟩),
        "Income forecast generated successfully"⟩ ∧
      (incomeSums txsC5).length =
        ((incomeList txsC5).map (fun t => t.date.month)).dedup.length) :=
  ⟨by decide, forecast_income_amended txsC5 gZero (by decide) (by decide)⟩

/-! ## Expense projection (`predict_expenses`) -/

theorem monthRaw_fst (cats : List (String × ℚ)) (g : Nat → ℚ) (base : Nat) :
    (monthRaw cats g base).map Prod.fst = cats.map Prod.fst := by
  unfold monthRaw
  rw [List.map_map]
  conv_rhs => rw [← List.enum_map_snd cats, List.map_map]
  rfl

theorem monthRaw_zero (cats : List (String × ℚ)) (base : Nat) :
    monthRaw cats gZero base = cats := by
  unfold monthRaw gZero
  conv_rhs => rw [← List.enum_map_snd cats]
  exact List.map_congr_left (fun p _ => by simp)

theorem mem_categoriesOf {l : List Transaction} {c : String} :
    c ∈ categoriesOf l ↔ c ∈ l.map (fun t => t.category) := by
  unfold categoriesOf
  rw [(List.perm_insertionSort _ _).mem_iff, List.mem_dedup]

theorem exists_mem_pair_iff {β : Type} (l : List (String × β)) (c : String) :
    (∃ v, (c, v) ∈ l) ↔ c ∈ l.map Prod.fst := by
  constructor
  · rintro ⟨v, hv⟩
    exact List.mem_map.mpr ⟨(c, v), hv, rfl⟩
  · intro hc
    obtain ⟨p, hp, he⟩ := List.mem_map.mp hc
    exact ⟨p.2, by rw [← he]; exact hp⟩

theorem pair_map_mem {β : Type} {l : List String} {F : String → β} {c : String} {v : β}
    (h : (c, v) ∈ l.map (fun x => (x, F x))) : v = F c := by
  obtain ⟨x, _, he⟩ := List.mem_map.mp h
  have h1 : x = c := congrArg Prod.fst he
  have h2 : F x = v := congrArg Prod.snd he
  rw [← h2, h1]

theorem pair_map_round_mem {l : List String} {F : String → ℚ} {c : String} {v : ℚ}
    (h : (c, v) ∈ (l.map (fun x => (x, F x))).map (fun q => (q.1, round2 q.2))) :
    v = round2 (F c) := by
  rw [List.map_map] at h
  exact pair_map_mem (F := fun x => round2 (F x)) h

theorem predict_expenses_ok {txs : List Transaction} (hne : txs ≠ []) (g : Nat → ℚ) :
    predict_expenses txs g = .ok (predictCore (expensesOf txs) g) := by
  unfold predict_expenses
  rw [isEmpty_false_of_ne hne]
  rfl

theorem predictCore_predictions {df : List Transaction} (g : Nat → ℚ)
    (h3 : ¬ df.length < 3) :
    (predictCore df g).predictions = (List.range 3).map (fun i =>
      ⟨maxMonth df + (i + 1),
        round2 (((monthRaw (catMeans df) g (i * (catMeans df).length)).map Prod.snd).sum),
        (monthRaw (catMeans df) g (i * (catMeans df).length)).map
          (fun p => (p.1, round2 p.2))⟩) := by
  unfold predictCore
  rw [if_neg h3]

/-- C3 (amended): with ≥3 expense transactions, `predict_expenses` returns
predictions for exactly the next 3 consecutive months after the latest
observed expense month; each month's `by_category` keys are exactly the
observed categories; and with every noise draw ε = 0 each reported value is
the category's historical mean amount **rounded to 2 decimal places** (the
mean of that category's transaction amounts — the statistic the code computes
with `df.groupby('category')['amount'].mean()`). -/
theorem predict_expenses_claim (txs : List Transaction) (g : Nat → ℚ)
    (h3 : 3 ≤ (expenseList txs).length) :
    (∃ body, predict_expenses txs g = .ok body ∧
      body.predictions.map (fun p => p.month) =
        [maxMonth (expenseList txs) + 1, maxMonth (expenseList txs) + 2,
          maxMonth (expenseList txs) + 3] ∧
      ∀ p ∈ body.predictions, ∀ c : String,
        ((∃ v, (c, v) ∈ p.by_category) ↔
          c ∈ (expenseList txs).map (fun t => t.category))) ∧
    (∃ body, predict_expenses txs gZero = .ok body ∧
      ∀ p ∈ body.predictions, ∀ c v, (c, v) ∈ p.by_category →
        v = round2 (mean (catAmounts (expenseList txs) c))) := by
  have hne : txs ≠ [] := expenseList_ne_nil (by omega)
  have hperm := expensesOf_perm txs
  have hlen : ¬ (expensesOf txs).length < 3 := by rw [hperm.length_eq]; omega
  constructor
  · refine ⟨predictCore (expensesOf txs) g, predict_expenses_ok hne g, ?_, ?_⟩
    · rw [predictCore_predictions g hlen, List.map_map]
      have hmax : maxMonth (expensesOf txs) = maxMonth (expenseList txs) := maxMonth_perm hperm
      show [maxMonth (expensesOf txs) + (0 + 1), maxMonth (expensesOf txs) + (1 + 1),
        maxMonth (expensesOf txs) + (2 + 1)] = _
      rw [hmax]
    · intro p hp c
      rw [predictCore_predictions g hlen] at hp
      obtain ⟨i, _, he⟩ := List.mem_map.mp hp
      have hpb : p.by_category =
          (monthRaw (catMeans (expensesOf txs)) g (i * (catMeans (expensesOf txs)).length)).map
            (fun q => (q.1, round2 q.2)) := by rw [← he]
      rw [hpb, exists_mem_pair_iff, List.map_map]
      have hkeys : (monthRaw (catMeans (expensesOf txs)) g
          (i * (catMeans (expensesOf txs)).length)).map Prod.fst =
          categoriesOf (expensesOf txs) := by
        rw [monthRaw_fst]
        unfold catMeans
        rw [List.map_map]
        exact (List.map_congr_left (fun x _ => rfl)).trans (List.map_id _)
      show c ∈ (monthRaw (catMeans (expensesOf txs)) g
          (i * (catMeans (expensesOf txs)).length)).map Prod.fst ↔ _
      rw [hkeys, mem_categoriesOf]
      exact (hperm.map _).mem_iff
  · refine ⟨predictCore (expensesOf txs) gZero, predict_expenses_ok hne gZero, ?_⟩
    intro p hp c v hcv
    rw [predictCore_predictions gZero hlen] at hp
    obtain ⟨i, _, he⟩ := List.mem_map.mp hp
    have hpb : p.by_category =
        (monthRaw (catMeans (expensesOf txs)) gZero (i * (catMeans (expensesOf txs)).length)).map
          (fun q => (q.1, round2 q.2)) := by rw [← he]
    rw [hpb, monthRaw_zero] at hcv
    unfold catMeans at hcv
    have hv := pair_map_round_mem hcv
    rw [hv, mean_perm (catAmounts_perm hperm c)]

set_option maxRecDepth 2000 in
/-- C3 counterexample: on `txsC3` (category mean 301/3) every unperturbed
(ε = 0) reported `by_category` value is 100.33, which differs from the
category's historical mean 301/3 = 100.333… — the claim's exact equality
fails because the code rounds each reported value to 2 decimals. -/
theorem predict_claim_counterexample :
    (predict_expenses txsC3 gZero).toOption.map
        (fun b => b.predictions.map (fun p => p.by_category)) =
      some [[("food", 10033 / 100)], [("food", 10033 / 100)], [("food", 10033 / 100)]] ∧
    (10033 / 100 : ℚ) ≠ mean (catAmounts (expenseList txsC3) "food") := by
  have hE : expenseList txsC3 = txsC3 := by simp +decide [expenseList, txsC3]
  have hD : expensesOf txsC3 = txsC3 := by
    simp +decide [expensesOf, expenseList, txsC3, List.insertionSort, List.orderedInsert]
  have hcats : categoriesOf txsC3 = ["food"] := by decide
  have hca : catAmounts txsC3 "food" = [100, 100, 101] := by
    simp +decide [catAmounts, catTxs, txsC3]
  have hmean : mean [(100 : ℚ), 100, 101] = 301 / 3 := by norm_num [mean]
  have hcm : catMeans txsC3 = [("food", 301 / 3)] := by
    rw [catMeans, hcats]
    simp [hca, hmean]
  have hr2 : round2 ((301 : ℚ) / 3) = 10033 / 100 := by
    have hfr : Int.fract ((30100 : ℚ) / 3) = 1 / 3 := by rw [Int.fract]; norm_num
    norm_num [round2, rne, hfr]
  constructor
  · rw [predict_expenses_ok (by simp [txsC3]) gZero, hD]
    have h3 : ¬ (txsC3 : List Transaction).length < 3 := by norm_num [txsC3]
    show some ((predictCore txsC3 gZero).predictions.map (fun p => p.by_category)) = _
    rw [predictCore_predictions gZero h3, List.map_map, hcm]
    rw [show List.range 3 = [0, 1, 2] from rfl]
    simp only [List.map_cons, List.map_nil, Function.comp, monthRaw_zero]
    rw [hr2]
  · rw [hE, hca, hmean]
    norm_num

theorem predict_expenses_claim_witness :
    3 ≤ (expenseList txsC3).length ∧
    ((∃ body, predict_expenses txsC3 gZero = .ok body ∧
      body.predictions.map (fun p => p.month) =
        [maxMonth (expenseList txsC3) + 1, maxMonth (expenseList txsC3) + 2,
          maxMonth (expenseList txsC3) + 3] ∧
      ∀ p ∈ body.predictions, ∀ c : String,
        ((∃ v, (c, v) ∈ p.by_category) ↔
          c ∈ (expenseList txsC3).map (fun t => t.category))) ∧
    (∃ body, predict_expenses txsC3 gZero = .ok body ∧
      ∀ p ∈ body.predictions, ∀ c v, (c, v) ∈ p.by_category →
        v = round2 (mean (catAmounts (expenseList txsC3) c)))) :=
  ⟨by decide, predict_expenses_claim txsC3 gZero (by decide)⟩

set_option maxRecDepth 2000 in
/-- C10: every prediction's `total_predicted_expenses` is the 2-decimal
rounding of the sum of the *unrounded* per-category projections, while each
`by_category` value is the 2-decimal rounding of its own projection; on
`txsC10` (two categories worth 0.125 each) the reported total 0.25 therefore
differs from the 0.24 sum of the reported per-category values. -/
theorem predict_total_rounding (txs : List Transaction) (g : Nat → ℚ)
    (h3 : 3 ≤ (expenseList txs).length) :
    (∃ body, predict_expenses txs g = .ok body ∧
      ∀ i, i < 3 → body.predictions[i]? = some
        ⟨maxMonth (expensesOf txs) + (i + 1),
          round2 (((monthRaw (catMeans (expensesOf txs)) g
            (i * (catMeans (expensesOf txs)).length)).map Prod.snd).sum),
          (monthRaw (catMeans (expensesOf txs)) g
            (i * (catMeans (expensesOf txs)).length)).map (fun q => (q.1, round2 q.2))⟩) ∧
    (∃ body, predict_expenses txsC10 gZero = .ok body ∧
      ∃ p ∈ body.predictions,
        p.total_predicted_expenses ≠ (p.by_category.map Prod.snd).sum) := by
  have hne : txs ≠ [] := expenseList_ne_nil (by omega)
  have hlen : ¬ (expensesOf txs).length < 3 := by rw [(expensesOf_perm txs).length_eq]; omega
  constructor
  · refine ⟨predictCore (expensesOf txs) g, predict_expenses_ok hne g, ?_⟩
    intro i hi
    rw [predictCore_predictions g hlen]
    rw [List.getElem?_map, List.getElem?_range hi]
    rfl
  · have hD10 : expensesOf txsC10 = txsC10 := by
      simp +decide [expensesOf, expenseList, txsC10, List.insertionSort, List.orderedInsert]
    have hcats10 : categoriesOf txsC10 = ["a", "b"] := by decide
    have hcaa : catAmounts txsC10 "a" = [1 / 8, 1 / 8] := by
      simp +decide [catAmounts, catTxs, txsC10]
    have hcab : catAmounts txsC10 "b" = [1 / 8] := by
      simp +decide [catAmounts, catTxs, txsC10]
    have hma : mean [(1 : ℚ) / 8, 1 / 8] = 1 / 8 := by norm_num [mean]
    have hmb : mean [(1 : ℚ) / 8] = 1 / 8 := by norm_num [mean]
    have hcm10 : catMeans txsC10 = [("a", 1 / 8), ("b", 1 / 8)] := by
      rw [catMeans, hcats10]
      simp only [List.map_cons, List.map_nil, hcaa, hcab, hma, hmb]
    refine ⟨predictCore (expensesOf txsC10) gZero,
      predict_expenses_ok (by simp [txsC10]) gZero, ?_⟩
    rw [hD10]
    have h310 : ¬ (txsC10 : List Transaction).length < 3 := by norm_num [txsC10]
    rw [predictCore_predictions gZero h310, hcm10]
    refine ⟨_, List.mem_map.mpr ⟨0, by decide, rfl⟩, ?_⟩
    simp only [monthRaw_zero, List.map_cons, List.map_nil, List.sum_cons, List.sum_nil]
    have hr4 : round2 ((1 : ℚ) / 8 + (1 / 8 + 0)) = 1 / 4 := by norm_num [round2, rne]
    have hr8 : round2 ((1 : ℚ) / 8) = 3 / 25 := by
      have hf8 : Int.fract ((25 : ℚ) / 2) = 1 / 2 := by rw [Int.fract]; norm_num
      norm_num [round2, rne, hf8]
    rw [hr4, hr8]
    norm_num

/-! ## Anomaly detection (`detect_anomalies`) -/

theorem catTxs_category {l : List Transaction} {c : String} {t : Transaction}
    (h : t ∈ catTxs l c) : t.category = c := by
  unfold catTxs at h
  simpa using (List.mem_filter.mp h).2

theorem catTxs_mem {l : List Transaction} {t : Transaction} (h : t ∈ l) :
    t ∈ catTxs l t.category := by
  unfold catTxs
  rw [List.mem_filter]
  exact ⟨h, by simp⟩

theorem catTxs_sub {l : List Transaction} {c : String} {t : Transaction}
    (h : t ∈ catTxs l c) : t ∈ l := (List.mem_filter.mp h).1

theorem popVar_nonneg (xs : List ℚ) : 0 ≤ popVar xs := by
  unfold popVar mean
  apply div_nonneg
  · apply List.sum_nonneg
    intro x hx
    obtain ⟨y, _, he⟩ := List.mem_map.mp hx
    rw [← he]
    positivity
  · positivity

theorem mem_categoryAnomalies {df : List Transaction} {c : String} {r : AnomalyRecord} :
    r ∈ categoryAnomalies df c ↔
      3 ≤ (catTxs df c).length ∧ popVar (catAmounts df c) ≠ 0 ∧
        ∃ t ∈ catTxs df c,
          4 * popVar (catAmounts df c) < (t.amount - mean (catAmounts df c)) ^ 2 ∧
          r = ⟨t.date, t.amount, c,
            (t.amount - mean (catAmounts df c)) ^ 2 / popVar (catAmounts df c),
            mean (catAmounts df c), popVar (catAmounts df c),
            if 9 * popVar (catAmounts df c) < (t.amount - mean (catAmounts df c)) ^ 2
            then "high" else "medium"⟩ := by
  simp only [categoryAnomalies]
  split_ifs with h1 h2
  · simp only [List.not_mem_nil, false_iff]
    rintro ⟨h3, _⟩
    omega
  · simp only [List.not_mem_nil, false_iff]
    rintro ⟨_, hv, _⟩
    exact hv h2
  · constructor
    · intro hr
      obtain ⟨t, ht, he⟩ := List.mem_map.mp hr
      have hm := List.mem_filter.mp ht
      refine ⟨by omega, h2, t, hm.1, ?_, he.symm⟩
      simpa using hm.2
    · rintro ⟨_, _, t, ht, hz, he⟩
      refine List.mem_map.mpr ⟨t, ?_, he.symm⟩
      rw [List.mem_filter]
      exact ⟨ht, by simpa using hz⟩

theorem mem_detectCore {df : List Transaction} {r : AnomalyRecord} (h5 : ¬ df.length < 5) :
    r ∈ (detectCore df).anomalies ↔
      ∃ t ∈ df, 3 ≤ catCount df t.category ∧
        popVar (catAmounts df t.category) ≠ 0 ∧
        4 * popVar (catAmounts df t.category) <
          (t.amount - mean (catAmounts df t.category)) ^ 2 ∧
        r = anomalyRecordOf df t := by
  simp only [detectCore]
  rw [if_neg h5]
  show r ∈ ((df.map (fun t => t.category)).dedup).flatMap (categoryAnomalies df) ↔ _
  rw [List.mem_flatMap]
  constructor
  · rintro ⟨c, hc, hr⟩
    rw [mem_categoryAnomalies] at hr
    obtain ⟨hlen, hv, t, ht, hz, he⟩ := hr
    have hcat : t.category = c := catTxs_category ht
    subst hcat
    exact ⟨t, catTxs_sub ht, hlen, hv, hz, he⟩
  · rintro ⟨t, htdf, hlen, hv, hz, he⟩
    refine ⟨t.category, ?_, ?_⟩
    · rw [List.mem_dedup]
      exact List.mem_map.mpr ⟨t, htdf, rfl⟩
    · rw [mem_categoryAnomalies]
      exact ⟨hlen, hv, t, catTxs_mem htdf, hz, he⟩

theorem detect_anomalies_okk {txs : List Transaction} (hne : txs ≠ []) (g : Nat → ℚ) :
    detect_anomalies txs g = .ok (detectCore (expensesOf txs)) := by
  unfold detect_anomalies
  rw [isEmpty_false_of_ne hne]
  rfl

theorem detect_anomalies_ok_inv {txs : List Transaction} {g : Nat → ℚ}
    {body : AnomalyResponse} (hok : detect_anomalies txs g = .ok body) :
    txs ≠ [] ∧ body = detectCore (expensesOf txs) := by
  by_cases hne : txs = []
  · subst hne
    rw [show detect_anomalies [] g = .error ⟨500, "400: No transaction data provided"⟩
      from rfl] at hok
    cases hok
  · rw [detect_anomalies_okk hne g] at hok
    injection hok with h
    exact ⟨hne, h.symm⟩

theorem anomalyRecordOf_perm {l₁ l₂ : List Transaction} (h : l₁.Perm l₂) (t : Transaction) :
    anomalyRecordOf l₁ t = anomalyRecordOf l₂ t := by
  unfold anomalyRecordOf
  rw [mean_perm (catAmounts_perm h t.category), popVar_perm (catAmounts_perm h t.category)]

theorem z_gt_iff {Δ v : ℚ} (hv : 0 < v) {k : ℚ} (hk : 0 ≤ k) :
    ((k : ℝ) < |(Δ : ℝ)| / Real.sqrt ((v : ℝ))) ↔ k ^ 2 * v < Δ ^ 2 := by
  have hv' : (0 : ℝ) < (v : ℝ) := by exact_mod_cast hv
  have hsv : (0 : ℝ) < Real.sqrt (v : ℝ) := Real.sqrt_pos.mpr hv'
  have hk' : (0 : ℝ) ≤ (k : ℝ) := by exact_mod_cast hk
  rw [lt_div_iff₀ hsv]
  have h1 : (k : ℝ) * Real.sqrt (v : ℝ) = Real.sqrt ((k : ℝ) ^ 2 * (v : ℝ)) := by
    rw [Real.sqrt_mul (sq_nonneg _) _, Real.sqrt_sq hk']
  have h2 : |(Δ : ℝ)| = Real.sqrt ((Δ : ℝ) ^ 2) := (Real.sqrt_sq_eq_abs _).symm
  rw [h1, h2, Real.sqrt_lt_sqrt_iff (by positivity)]
  constructor
  · intro h
    exact_mod_cast h
  · intro h
    exact_mod_cast h

theorem z_gt_two_iff {Δ v : ℚ} (hv : 0 < v) :
    ((2 : ℝ) < |(Δ : ℝ)| / Real.sqrt ((v : ℝ))) ↔ 4 * v < Δ ^ 2 := by
  have h := z_gt_iff (Δ := Δ) hv (k := 2) (by norm_num)
  rw [show ((2 : ℚ) : ℝ) = (2 : ℝ) from by norm_num,
    show (2 : ℚ) ^ 2 = 4 from by norm_num] at h
  exact h

theorem z_gt_three_iff {Δ v : ℚ} (hv : 0 < v) :
    ((3 : ℝ) < |(Δ : ℝ)| / Real.sqrt ((v : ℝ))) ↔ 9 * v < Δ ^ 2 := by
  have h := z_gt_iff (Δ := Δ) hv (k := 3) (by norm_num)
  rw [show ((3 : ℚ) : ℝ) = (3 : ℝ) from by norm_num,
    show (3 : ℚ) ^ 2 = 9 from by norm_num] at h
  exact h

theorem z_gt_two_iff' {a μ v : ℚ} (hv : 0 < v) :
    ((2 : ℝ) < |(a : ℝ) - (μ : ℝ)| / Real.sqrt ((v : ℝ))) ↔ 4 * v < (a - μ) ^ 2 := by
  have h := z_gt_two_iff (Δ := a - μ) hv
  rw [show (((a - μ : ℚ)) : ℝ) = (a : ℝ) - (μ : ℝ) from by push_cast; rfl] at h
  exact h

theorem z_gt_three_iff' {a μ v : ℚ} (hv : 0 < v) :
    ((3 : ℝ) < |(a : ℝ) - (μ : ℝ)| / Real.sqrt ((v : ℝ))) ↔ 9 * v < (a - μ) ^ 2 := by
  have h := z_gt_three_iff (Δ := a - μ) hv
  rw [show (((a - μ : ℚ)) : ℝ) = (a : ℝ) - (μ : ℝ) from by push_cast; rfl] at h
  exact h

theorem sqrt_zsq_eq (Δ v : ℚ) :
    Real.sqrt (((Δ ^ 2 / v : ℚ) : ℝ)) = |(Δ : ℝ)| / Real.sqrt ((v : ℝ)) := by
  push_cast
  rw [Real.sqrt_div (sq_nonneg _) _, Real.sqrt_sq_eq_abs]

/-- C4: with ≥5 expense transactions, `detect_anomalies` succeeds and flags a
transaction iff its category has ≥3 expense rows with nonzero population
standard deviation and `z = |amount − mean| / std > 2` — mean and
`std = √(population variance)` taken over that category's expense amounts;
each flagged record carries `z_score = √zsq = |amount − mean| / std`,
severity "high" exactly when `z > 3` (else "medium"), and the expected range
`[mean − 2·std, mean + 2·std]` represented by its stored `(mean, var)` pair,
which equals that category's (mean, variance). -/
theorem detect_anomalies_claim (txs : List Transaction) (g : Nat → ℚ)
    (h5 : 5 ≤ (expenseList txs).length) :
    ∃ body, detect_anomalies txs g = .ok body ∧
      (∀ r : AnomalyRecord, r ∈ body.anomalies ↔
        ∃ t ∈ expenseList txs,
          3 ≤ catCount (expenseList txs) t.category ∧
          popVar (catAmounts (expenseList txs) t.category) ≠ 0 ∧
          (2 : ℝ) < |(t.amount : ℝ) - ((mean (catAmounts (expenseList txs) t.category) : ℚ) : ℝ)| /
            Real.sqrt ((popVar (catAmounts (expenseList txs) t.category) : ℚ) : ℝ) ∧
          r = anomalyRecordOf (expenseList txs) t) ∧
      (∀ r ∈ body.anomalies,
        Real.sqrt ((r.zsq : ℚ) : ℝ) =
          |(r.amount : ℝ) - ((r.mean : ℚ) : ℝ)| / Real.sqrt ((r.var : ℚ) : ℝ) ∧
        ((r.severity = "high") ↔ (3 : ℝ) < Real.sqrt ((r.zsq : ℚ) : ℝ)) ∧
        ((r.severity = "medium") ↔ ¬ (3 : ℝ) < Real.sqrt ((r.zsq : ℚ) : ℝ)) ∧
        r.mean = mean (catAmounts (expenseList txs) r.category) ∧
        r.var = popVar (catAmounts (expenseList txs) r.category)) := by
  have hne : txs ≠ [] := expenseList_ne_nil (by omega)
  have hperm := expensesOf_perm txs
  have h5' : ¬ (expensesOf txs).length < 5 := by rw [hperm.length_eq]; omega
  refine ⟨detectCore (expensesOf txs), detect_anomalies_okk hne g, ?_, ?_⟩
  · intro r
    rw [mem_detectCore h5']
    constructor
    · rintro ⟨t, ht, hlen, hv, hz, he⟩
      have hc := catAmounts_perm hperm t.category
      have hcc := catCount_perm hperm t.category
      have hmm := mean_perm hc
      have hvv := popVar_perm hc
      have hvpos : 0 < popVar (catAmounts (expenseList txs) t.category) :=
        lt_of_le_of_ne (popVar_nonneg _) (fun hh => hv (by rw [hvv, ← hh]))
      refine ⟨t, hperm.mem_iff.mp ht, by omega, by rw [← hvv]; exact hv, ?_, ?_⟩
      · exact (z_gt_two_iff' hvpos).mpr (by rw [← hmm, ← hvv]; exact hz)
      · rw [he]
        exact anomalyRecordOf_perm hperm t
    · rintro ⟨t, ht, hlen, hv, hz, he⟩
      have hc := catAmounts_perm hperm t.category
      have hcc := catCount_perm hperm t.category
      have hmm := mean_perm hc
      have hvv := popVar_perm hc
      have hvpos : 0 < popVar (catAmounts (expenseList txs) t.category) :=
        lt_of_le_of_ne (popVar_nonneg _) (fun hh => hv hh.symm)
      refine ⟨t, hperm.mem_iff.mpr ht, by omega, by rw [hvv]; exact hv, ?_, ?_⟩
      · rw [hmm, hvv]
        exact (z_gt_two_iff' hvpos).mp hz
      · rw [he]
        exact (anomalyRecordOf_perm hperm t).symm
  · intro r hr
    rw [mem_detectCore h5'] at hr
    obtain ⟨t, ht, hlen, hv, hz, he⟩ := hr
    have hc := catAmounts_perm hperm t.category
    have hmm := mean_perm hc
    have hvv := popVar_perm hc
    have hvpos : 0 < popVar (catAmounts (expensesOf txs) t.category) :=
      lt_of_le_of_ne (popVar_nonneg _) (fun hh => hv hh.symm)
    have hrc : r.category = t.category := by rw [he]; rfl
    have hrz : r.zsq = (t.amount - mean (catAmounts (expensesOf txs) t.category)) ^ 2 /
        popVar (catAmounts (expensesOf txs) t.category) := by rw [he]; rfl
    have hram : r.amount = t.amount := by rw [he]; rfl
    have hrm : r.mean = mean (catAmounts (expensesOf txs) t.category) := by rw [he]; rfl
    have hrv : r.var = popVar (catAmounts (expensesOf txs) t.category) := by rw [he]; rfl
    have hsq : Real.sqrt ((r.zsq : ℚ) : ℝ) =
        |(r.amount : ℝ) - ((r.mean : ℚ) : ℝ)| / Real.sqrt ((r.var : ℚ) : ℝ) := by
      rw [hrz, hram, hrm, hrv, sqrt_zsq_eq]
      push_cast
      rfl
    refine ⟨hsq, ?_, ?_, by rw [hrm, hrc, hmm], by rw [hrv, hrc, hvv]⟩
    · rw [hsq, hram, hrm, hrv]
      rw [z_gt_three_iff' hvpos]
      have hsev : r.severity =
          if 9 * popVar (catAmounts (expensesOf txs) t.category) <
            (t.amount - mean (catAmounts (expensesOf txs) t.category)) ^ 2
          then "high" else "medium" := by rw [he]; rfl
      rw [hsev]
      by_cases hcond : 9 * popVar (catAmounts (expensesOf txs) t.category) <
          (t.amount - mean (catAmounts (expensesOf txs) t.category)) ^ 2
      · rw [if_pos hcond]
        simp [hcond]
      · rw [if_neg hcond]
        simp [hcond]
    · rw [hsq, hram, hrm, hrv]
      rw [z_gt_three_iff' hvpos]
      have hsev : r.severity =
          if 9 * popVar (catAmounts (expensesOf txs) t.category) <
            (t.amount - mean (catAmounts (expensesOf txs) t.category)) ^ 2
          then "high" else "medium" := by rw [he]; rfl
      rw [hsev]
      by_cases hcond : 9 * popVar (catAmounts (expensesOf txs) t.category) <
          (t.amount - mean (catAmounts (expensesOf txs) t.category)) ^ 2
      · rw [if_pos hcond]
        simp [hcond]
      · rw [if_neg hcond]
        simp [hcond]

/-- C6: every anomaly record comes from a category with at least 3 expense
rows and nonzero population variance; the record's stored divisor `var` is
that category's variance and is nonzero, so the z-score division
`|amount − mean| / std` is never reached with a zero divisor. -/
theorem anomalies_safety (txs : List Transaction) (g : Nat → ℚ) (body : AnomalyResponse)
    (r : AnomalyRecord) (hok : detect_anomalies txs g = .ok body)
    (hr : r ∈ body.anomalies) :
    3 ≤ catCount (expenseList txs) r.category ∧
    popVar (catAmounts (expenseList txs) r.category) ≠ 0 ∧
    r.var = popVar (catAmounts (expenseList txs) r.category) ∧ r.var ≠ 0 := by
  obtain ⟨hne, hbody⟩ := detect_anomalies_ok_inv hok
  subst hbody
  by_cases h5 : (expensesOf txs).length < 5
  · exfalso
    have hempty : (detectCore (expensesOf txs)).anomalies = [] := by
      simp only [detectCore]
      rw [if_pos h5]
    rw [hempty] at hr
    exact absurd hr (List.not_mem_nil _)
  · rw [mem_detectCore h5] at hr
    obtain ⟨t, ht, hlen, hv, hz, he⟩ := hr
    have hperm := expensesOf_perm txs
    have hc := catAmounts_perm hperm t.category
    have hrc : r.category = t.category := by rw [he]; rfl
    have hrv : r.var = popVar (catAmounts (expensesOf txs) t.category) := by rw [he]; rfl
    have hvv := popVar_perm hc
    have hcc := catCount_perm hperm t.category
    refine ⟨by rw [hrc]; omega, by rw [hrc, ← hvv]; exact hv, ?_, ?_⟩
    · rw [hrv, hrc, hvv]
    · rw [hrv]
      exact hv

/-- C8: every successful `detect_anomalies` response (the shortfall response
included) reports `total_anomalies` equal to the length of its `anomalies`
list. -/
theorem total_anomalies_claim (txs : List Transaction) (g : Nat → ℚ)
    (body : AnomalyResponse) (hok : detect_anomalies txs g = .ok body) :
    body.total_anomalies = body.anomalies.length := by
  obtain ⟨hne, hbody⟩ := detect_anomalies_ok_inv hok
  subst hbody
  simp only [detectCore]
  split_ifs
  · rfl
  · rfl

set_option maxRecDepth 4000 in
/-- Concrete run: on `txsD` the detector flags exactly the 100 transaction,
with z² = 5, mean 25, variance 1125 and severity "medium". -/
theorem detect_txsD : detect_anomalies txsD gZero = .ok bodyD := by
  have hD : expensesOf txsD = txsD := by
    simp +decide [expensesOf, expenseList, txsD, List.insertionSort, List.orderedInsert]
  rw [detect_anomalies_okk (by simp [txsD]) gZero, hD]
  have hcats : (txsD.map (fun t => t.category)).dedup = ["food"] := by decide
  have hct : catTxs txsD "food" = txsD := by simp +decide [catTxs, txsD]
  have hca : catAmounts txsD "food" = [10, 10, 10, 10, 10, 100] := by
    simp +decide [catAmounts, catTxs, txsD]
  have hm : mean [(10 : ℚ), 10, 10, 10, 10, 100] = 25 := by norm_num [mean]
  have hv : popVar [(10 : ℚ), 10, 10, 10, 10, 100] = 1125 := by
    norm_num [popVar, mean]
  have hcore : categoryAnomalies txsD "food" = [rD] := by
    simp only [categoryAnomalies, hct, hca, hm, hv]
    rw [if_neg (by decide), if_neg (by norm_num)]
    norm_num [txsD, List.filter_cons, List.filter_nil, rD]
  congr 1
  simp only [detectCore]
  rw [if_neg (by decide), hcats]
  simp only [List.flatMap_cons, List.flatMap_nil, hcore, List.append_nil]
  rfl

theorem detect_anomalies_claim_witness :
    5 ≤ (expenseList txsD).length ∧
    (∃ body, detect_anomalies txsD gZero = .ok body ∧
      (∀ r : AnomalyRecord, r ∈ body.anomalies ↔
        ∃ t ∈ expenseList txsD,
          3 ≤ catCount (expenseList txsD) t.category ∧
          popVar (catAmounts (expenseList txsD) t.category) ≠ 0 ∧
          (2 : ℝ) < |(t.amount : ℝ) -
              ((mean (catAmounts (expenseList txsD) t.category) : ℚ) : ℝ)| /
            Real.sqrt ((popVar (catAmounts (expenseList txsD) t.category) : ℚ) : ℝ) ∧
          r = anomalyRecordOf (expenseList txsD) t) ∧
      (∀ r ∈ body.anomalies,
        Real.sqrt ((r.zsq : ℚ) : ℝ) =
          |(r.amount : ℝ) - ((r.mean : ℚ) : ℝ)| / Real.sqrt ((r.var : ℚ) : ℝ) ∧
        ((r.severity = "high") ↔ (3 : ℝ) < Real.sqrt ((r.zsq : ℚ) : ℝ)) ∧
        ((r.severity = "medium") ↔ ¬ (3 : ℝ) < Real.sqrt ((r.zsq : ℚ) : ℝ)) ∧
        r.mean = mean (catAmounts (expenseList txsD) r.category) ∧
        r.var = popVar (catAmounts (expenseList txsD) r.category))) :=
  ⟨by decide, detect_anomalies_claim txsD gZero (by decide)⟩

theorem anomalies_safety_witness :
    3 ≤ catCount (expenseList txsD) rD.category ∧
    popVar (catAmounts (expenseList txsD) rD.category) ≠ 0 ∧
    rD.var = popVar (catAmounts (expenseList txsD) rD.category) ∧ rD.var ≠ 0 :=
  anomalies_safety txsD gZero bodyD rD detect_txsD (by simp [bodyD])

theorem total_anomalies_claim_witness :
    bodyD.total_anomalies = bodyD.anomalies.length :=
  total_anomalies_claim txsD gZero bodyD detect_txsD

theorem predict_total_rounding_witness :
    3 ≤ (expenseList txsC10).length ∧
    ((∃ body, predict_expenses txsC10 gZero = .ok body ∧
      ∀ i, i < 3 → body.predictions[i]? = some
        ⟨maxMonth (expensesOf txsC10) + (i + 1),
          round2 (((monthRaw (catMeans (expensesOf txsC10)) gZero
            (i * (catMeans (expensesOf txsC10)).length)).map Prod.snd).sum),
          (monthRaw (catMeans (expensesOf txsC10)) gZero
            (i * (catMeans (expensesOf txsC10)).length)).map
              (fun q => (q.1, round2 q.2))⟩) ∧
    (∃ body, predict_expenses txsC10 gZero = .ok body ∧
      ∃ p ∈ body.predictions,
        p.total_predicted_expenses ≠ (p.by_category.map Prod.snd).sum)) :=
  ⟨by decide, predict_total_rounding txsC10 gZero (by decide)⟩

end AutoBudget
